import Mathlib

/-!
Verification of the FOCX governance program (proposal lifecycle state
machine, weighted vote tallying, threshold finalization, deposit economics,
committee roster and rule registry).

The repository ships the Anchor IDL (`src/target/types/governance_system.ts`),
the test suite and client scripts; the on-chain Rust instruction bodies are
not part of the source tree.  Account and enum shapes below are translated
from the IDL; every instruction body is modelled from the specification, as
marked in its doc comment.  Machine integers (`u64`, `u16`, `i64` as used by
the program) are modelled as `Nat`: the program uses checked arithmetic that
aborts the transaction instead of wrapping, so the successful executions the
theorems describe compute exactly.
-/

namespace Governance

/-- Error codes, translated from the `errors` table of the IDL
(`governanceSystem` error enum, codes 6004-6032). -/
inductive GovError where
  | invalidThreshold
  | invalidFeeRate
  | invalidVotingPeriod
  | proposalNotActive
  | votingPeriodEnded
  | votingPeriodNotEnded
  | invalidProposalTitleLength
  | invalidProposalDescriptionLength
  | insufficientProposalDeposit
  | alreadyVoted
  | insufficientVotingPower
  | notCommitteeMember
  | committeeFull
  | memberAlreadyExists
  | memberNotFound
  | ruleDocumentNotFound
  | duplicateRuleDocument
  | tooManyRuleDocuments
  deriving DecidableEq, Repr

/-- Proposal status, translated from the IDL enum `proposalStatus`. -/
inductive ProposalStatus where
  | pending
  | passed
  | rejected
  | vetoed
  | executed
  deriving DecidableEq, Repr

/-- Vote options, translated from the IDL enum `voteType`
(Yes / No / Abstain / NoWithVeto). -/
inductive VoteType where
  | yes
  | no
  | abstain
  | noWithVeto
  deriving DecidableEq, Repr

/-- Governance configuration account, fields translated from the IDL struct
`governanceConfig`.  Public keys are abstracted as `Nat`; the committee
roster is the IDL's array of ten optional member slots. -/
structure GovernanceConfig where
  authority : Nat
  committeeMembers : List (Option Nat)
  committeeMemberCount : Nat
  proposalDeposit : Nat
  votingPeriod : Nat
  participationThreshold : Nat
  approvalThreshold : Nat
  vetoThreshold : Nat
  feeRate : Nat
  totalVotingPower : Nat
  proposalCounter : Nat
  deriving DecidableEq, Repr

/-- Proposal account, fields translated from the IDL struct `proposal`. -/
structure Proposal where
  id : Nat
  proposer : Nat
  title : String
  description : String
  depositAmount : Nat
  votingStart : Nat
  votingEnd : Nat
  status : ProposalStatus
  yesVotes : Nat
  noVotes : Nat
  abstainVotes : Nat
  vetoVotes : Nat
  totalVotes : Nat
  deriving DecidableEq, Repr

/-- Vote receipt account, fields translated from the IDL struct `vote`
(`votingPower` is the token balance snapshotted at cast time). -/
structure VoteRecord where
  proposalId : Nat
  voter : Nat
  voteType : VoteType
  votingPower : Nat
  isRevoked : Bool
  deriving DecidableEq, Repr

/-- Modelled from the spec: finalization decision order (§4.2 rule 1-4).
All rates are integer basis points (`x*10000/denom`); the `total == 0` case
is guarded by rule 1 before any other rate is computed:
1. no participation or participation rate below threshold → Rejected;
2. veto rate strictly above the veto threshold → Vetoed;
3. approval rate strictly above the approval threshold → Passed;
4. otherwise → Rejected. -/
def finalizeDecision (cfg : GovernanceConfig) (p : Proposal) : ProposalStatus :=
  let total := p.totalVotes
  if total = 0 ∨ total * 10000 / cfg.totalVotingPower < cfg.participationThreshold then
    ProposalStatus.rejected
  else if p.vetoVotes * 10000 / total > cfg.vetoThreshold then
    ProposalStatus.vetoed
  else if p.yesVotes * 10000 / total > cfg.approvalThreshold then
    ProposalStatus.passed
  else
    ProposalStatus.rejected

/-- Result of a finalization: the finalized proposal, the amount refunded to
the proposer, the fee/forfeiture retained by the committee, and the vault
balance after settlement. -/
structure FinalizeResult where
  proposal : Proposal
  refund : Nat
  fee : Nat
  vaultBalance : Nat
  deriving DecidableEq, Repr

/-- Modelled from the spec: `FinalizeProposal` (§4.2, §4.3).  Callable only
while the proposal is still Pending (else `ProposalNotActive`) and only after
`votingEnd` (else `VotingPeriodNotEnded`).  On a Passed outcome the proposer
is refunded `depositAmount*(10000-feeRate)/10000` of the proposal's recorded
`depositAmount` and the remainder is retained as the committee fee; on any
other outcome the full deposit is forfeited.  The vault's live balance
(`vaultBalance`) is never read by the settlement arithmetic. -/
def finalizeProposal (cfg : GovernanceConfig) (p : Proposal) (now : Nat)
    (vaultBalance : Nat) : Except GovError FinalizeResult :=
  if p.status ≠ ProposalStatus.pending then
    Except.error GovError.proposalNotActive
  else if now < p.votingEnd then
    Except.error GovError.votingPeriodNotEnded
  else
    let st := finalizeDecision cfg p
    let refund := if st = ProposalStatus.passed then
      p.depositAmount * (10000 - cfg.feeRate) / 10000 else 0
    let fee := p.depositAmount - refund
    Except.ok { proposal := { p with status := st }, refund := refund,
                fee := fee, vaultBalance := vaultBalance - refund }

/-- A voter is a current committee member when some roster slot holds their
identity. -/
def isCommitteeMember (cfg : GovernanceConfig) (voter : Nat) : Bool :=
  cfg.committeeMembers.contains (some voter)

/-- There is a live (non-revoked) vote receipt for `(proposalId, voter)` in
the ledger. -/
def hasLiveVote (ledger : List VoteRecord) (proposalId voter : Nat) : Bool :=
  ledger.any fun v => v.proposalId = proposalId ∧ v.voter = voter ∧ v.isRevoked = false

/-- The tally bucket of a proposal selected by a vote option. -/
def bucket (vt : VoteType) (p : Proposal) : Nat :=
  match vt with
  | VoteType.yes => p.yesVotes
  | VoteType.no => p.noVotes
  | VoteType.abstain => p.abstainVotes
  | VoteType.noWithVeto => p.vetoVotes

/-- Add `power` to the bucket of a proposal selected by the vote option, and
to `totalVotes`. -/
def addToBucket (p : Proposal) (vt : VoteType) (power : Nat) : Proposal :=
  match vt with
  | VoteType.yes => { p with yesVotes := p.yesVotes + power,
                             totalVotes := p.totalVotes + power }
  | VoteType.no => { p with noVotes := p.noVotes + power,
                            totalVotes := p.totalVotes + power }
  | VoteType.abstain => { p with abstainVotes := p.abstainVotes + power,
                                 totalVotes := p.totalVotes + power }
  | VoteType.noWithVeto => { p with vetoVotes := p.vetoVotes + power,
                                    totalVotes := p.totalVotes + power }

/-- Modelled from the spec: `CastVote` (§4.2).  The vote receipt's record key
is unique per `(proposalId, voter)`, so a second cast by the same voter fails
before any instruction logic runs; the caller must be a current committee
member with a nonzero committee-token balance (snapshotted as their voting
power) and the call must occur before `votingEnd`; on success the snapshotted
balance is added to exactly one tally bucket and to `totalVotes`, and a live
receipt is appended to the ledger. -/
def castVote (cfg : GovernanceConfig) (ledger : List VoteRecord) (p : Proposal)
    (voter : Nat) (tokenBalance : Nat) (vt : VoteType) (now : Nat) :
    Except GovError (Proposal × List VoteRecord) :=
  if hasLiveVote ledger p.id voter then
    Except.error GovError.alreadyVoted
  else if ¬ isCommitteeMember cfg voter then
    Except.error GovError.notCommitteeMember
  else if tokenBalance = 0 then
    Except.error GovError.insufficientVotingPower
  else if p.votingEnd ≤ now then
    Except.error GovError.votingPeriodEnded
  else
    Except.ok (addToBucket p vt tokenBalance,
      { proposalId := p.id, voter := voter, voteType := vt,
        votingPower := tokenBalance, isRevoked := false } :: ledger)

/-- Replace the first empty roster slot with `id`. -/
def fillFirstEmpty (slots : List (Option Nat)) (id : Nat) : List (Option Nat) :=
  match slots with
  | [] => []
  | none :: rest => some id :: rest
  | some m :: rest => some m :: fillFirstEmpty rest id

/-- Empty the slot holding `id`. -/
def clearMember (slots : List (Option Nat)) (id : Nat) : List (Option Nat) :=
  match slots with
  | [] => []
  | some m :: rest =>
    if m = id then none :: rest else some m :: clearMember rest id
  | none :: rest => none :: clearMember rest id

/-- Number of occupied roster slots. -/
def occupiedCount (slots : List (Option Nat)) : Nat :=
  (slots.filter Option.isSome).length

/-- Modelled from the spec: `AddMember` (§4.1).  Fails with
`MemberAlreadyExists` when the identity is already on the roster and with
`CommitteeFull` when all ten slots are occupied; otherwise places the member
in the first empty slot and increments the count. -/
def addCommitteeMember (cfg : GovernanceConfig) (id : Nat) :
    Except GovError GovernanceConfig :=
  if cfg.committeeMembers.contains (some id) then
    Except.error GovError.memberAlreadyExists
  else if ¬ cfg.committeeMembers.contains none then
    Except.error GovError.committeeFull
  else
    Except.ok { cfg with committeeMembers := fillFirstEmpty cfg.committeeMembers id,
                         committeeMemberCount := cfg.committeeMemberCount + 1 }

/-- Modelled from the spec: `RemoveMember` (§4.1).  Fails with
`MemberNotFound` when the identity is absent; otherwise empties its slot and
decrements the count. -/
def removeCommitteeMember (cfg : GovernanceConfig) (id : Nat) :
    Except GovError GovernanceConfig :=
  if ¬ cfg.committeeMembers.contains (some id) then
    Except.error GovError.memberNotFound
  else
    Except.ok { cfg with committeeMembers := clearMember cfg.committeeMembers id,
                         committeeMemberCount := cfg.committeeMemberCount - 1 }

/-- Modelled from the spec: `InitializeGovernance`.  Validates every
basis-point parameter against 10000 (thresholds first, then the fee rate, as
exercised by the Initialization Errors tests) and requires a positive voting
period, all before any state is created. -/
def initializeGovernance (authority : Nat) (proposalDeposit votingPeriod : Nat)
    (participationThreshold approvalThreshold vetoThreshold feeRate : Nat) :
    Except GovError GovernanceConfig :=
  if participationThreshold > 10000 ∨ approvalThreshold > 10000 ∨
      vetoThreshold > 10000 then
    Except.error GovError.invalidThreshold
  else if feeRate > 10000 then
    Except.error GovError.invalidFeeRate
  else if votingPeriod = 0 then
    Except.error GovError.invalidVotingPeriod
  else
    Except.ok { authority := authority,
                committeeMembers := List.replicate 10 none,
                committeeMemberCount := 0,
                proposalDeposit := proposalDeposit,
                votingPeriod := votingPeriod,
                participationThreshold := participationThreshold,
                approvalThreshold := approvalThreshold,
                vetoThreshold := vetoThreshold,
                feeRate := feeRate,
                totalVotingPower := 0,
                proposalCounter := 0 }

/-- Sparse configuration patch, fields translated from the IDL struct
`governanceConfigUpdate`. -/
structure GovernanceConfigUpdate where
  proposalDeposit : Option Nat
  votingPeriod : Option Nat
  participationThreshold : Option Nat
  approvalThreshold : Option Nat
  vetoThreshold : Option Nat
  feeRate : Option Nat
  deriving DecidableEq, Repr

/-- Modelled from the spec: `UpdateConfig` (§4.1).  Validates each provided
threshold and fee against 10000 and each provided voting period against 0,
before any state is mutated, then applies only the supplied fields. -/
def updateConfig (cfg : GovernanceConfig) (u : GovernanceConfigUpdate) :
    Except GovError GovernanceConfig :=
  if u.participationThreshold.any (fun t => t > 10000) ∨
      u.approvalThreshold.any (fun t => t > 10000) ∨
      u.vetoThreshold.any (fun t => t > 10000) then
    Except.error GovError.invalidThreshold
  else if u.feeRate.any (fun t => t > 10000) then
    Except.error GovError.invalidFeeRate
  else if u.votingPeriod.any (fun t => t = 0) then
    Except.error GovError.invalidVotingPeriod
  else
    Except.ok { cfg with
      proposalDeposit := u.proposalDeposit.getD cfg.proposalDeposit,
      votingPeriod := u.votingPeriod.getD cfg.votingPeriod,
      participationThreshold :=
        u.participationThreshold.getD cfg.participationThreshold,
      approvalThreshold := u.approvalThreshold.getD cfg.approvalThreshold,
      vetoThreshold := u.vetoThreshold.getD cfg.vetoThreshold,
      feeRate := u.feeRate.getD cfg.feeRate }

/-- The freshly created proposal record: next counter value as id, voting
window `[now, now+votingPeriod]`, Pending status, zeroed tallies. -/
def newProposal (cfg : GovernanceConfig) (proposer : Nat)
    (title description : String) (deposit now : Nat) : Proposal :=
  { id := cfg.proposalCounter + 1, proposer := proposer, title := title,
    description := description, depositAmount := deposit,
    votingStart := now, votingEnd := now + cfg.votingPeriod,
    status := ProposalStatus.pending, yesVotes := 0, noVotes := 0,
    abstainVotes := 0, vetoVotes := 0, totalVotes := 0 }

/-- Modelled from the spec: `CreateProposal` (§4.2).  Validates the title
(at most 100 characters; an empty title is allowed), the description (at
most 800 characters) and, when a custom deposit is supplied, that it is at
least the configured minimum; charges the deposit, assigns the next counter
value as id, opens the voting window `[now, now+votingPeriod]` and starts
the proposal Pending with zeroed tallies. -/
def createProposal (cfg : GovernanceConfig) (proposer : Nat)
    (title description : String) (customDeposit : Option Nat) (now : Nat) :
    Except GovError (Proposal × GovernanceConfig) :=
  if title.length > 100 then
    Except.error GovError.invalidProposalTitleLength
  else if description.length > 800 then
    Except.error GovError.invalidProposalDescriptionLength
  else
    let deposit := customDeposit.getD cfg.proposalDeposit
    if deposit < cfg.proposalDeposit then
      Except.error GovError.insufficientProposalDeposit
    else
      Except.ok (newProposal cfg proposer title description deposit now,
        { cfg with proposalCounter := cfg.proposalCounter + 1 })

/-- Rule document, fields translated from the IDL struct `ruleDocument`
(timestamps omitted; they do not enter any verified property). -/
structure RuleDocument where
  category : String
  title : String
  url : String
  hash : String
  deriving DecidableEq, Repr

/-- Rule registry account, fields translated from the IDL struct
`ruleRegistry`: an ordered document list plus a version counter. -/
structure RuleRegistry where
  authority : Nat
  ruleDocuments : List RuleDocument
  version : Nat
  deriving DecidableEq, Repr

/-- Modelled from the spec: registry capacity («capacity-checked», §4.5; the
concrete bound is not fixed by the available material). -/
def maxRuleDocuments : Nat := 100

/-- Modelled from the spec: `CreateRuleRegistry`.  A fresh registry is empty
at version 1 (the test suite observes versions 2, 3, 4 after the first add,
update and remove). -/
def createRuleRegistry (authority : Nat) : RuleRegistry :=
  { authority := authority, ruleDocuments := [], version := 1 }

/-- Modelled from the spec: `Add` (§4.5).  Rejects a duplicate
`(category, title, url)` triple, checks capacity, appends the document and
bumps the version. -/
def addRuleDocument (reg : RuleRegistry) (doc : RuleDocument) :
    Except GovError RuleRegistry :=
  if reg.ruleDocuments.any fun d =>
      d.category = doc.category ∧ d.title = doc.title ∧ d.url = doc.url then
    Except.error GovError.duplicateRuleDocument
  else if reg.ruleDocuments.length ≥ maxRuleDocuments then
    Except.error GovError.tooManyRuleDocuments
  else
    Except.ok { reg with ruleDocuments := reg.ruleDocuments ++ [doc],
                         version := reg.version + 1 }

/-- Modelled from the spec: `Update` (§4.5).  Bounds-checked sparse patch of
the document's url and hash; bumps the version. -/
def updateRuleDocument (reg : RuleRegistry) (index : Nat)
    (newUrl newHash : Option String) : Except GovError RuleRegistry :=
  match reg.ruleDocuments[index]? with
  | none => Except.error GovError.ruleDocumentNotFound
  | some d =>
    Except.ok { reg with
      ruleDocuments := reg.ruleDocuments.set index
        { d with url := newUrl.getD d.url, hash := newHash.getD d.hash },
      version := reg.version + 1 }

/-- Modelled from the spec: `Remove` (§4.5).  Bounds-checked removal that
preserves the order of the remaining entries; bumps the version. -/
def removeRuleDocument (reg : RuleRegistry) (index : Nat) :
    Except GovError RuleRegistry :=
  if index < reg.ruleDocuments.length then
    Except.ok { reg with ruleDocuments := reg.ruleDocuments.eraseIdx index,
                         version := reg.version + 1 }
  else
    Except.error GovError.ruleDocumentNotFound

/-- Modelled from the spec: `Verify` (§4.5).  Pure read: true exactly when
the document at `index` exists and its stored hash equals the expected
hash. -/
def verifyRuleDocument (reg : RuleRegistry) (index : Nat)
    (expectedHash : String) : Bool :=
  match reg.ruleDocuments[index]? with
  | some d => d.hash = expectedHash
  | none => false

/-- Concrete configuration used by the witnesses: the spec §8 scenario
(total voting power 75, thresholds 4000/5000/3000 bp, fee rate 1000 bp). -/
def cfgW : GovernanceConfig :=
  { authority := 0,
    committeeMembers :=
      [some 1, some 2, some 3, some 4, none, none, none, none, none, none],
    committeeMemberCount := 4, proposalDeposit := 100, votingPeriod := 50,
    participationThreshold := 4000, approvalThreshold := 5000,
    vetoThreshold := 3000, feeRate := 1000, totalVotingPower := 75,
    proposalCounter := 0 }

/-- Concrete pending proposal with the given tallies, used by the
witnesses. -/
def pW (yes no abst veto : Nat) : Proposal :=
  { id := 1, proposer := 1, title := "t", description := "d",
    depositAmount := 100, votingStart := 0, votingEnd := 50,
    status := ProposalStatus.pending, yesVotes := yes, noVotes := no,
    abstainVotes := abst, vetoVotes := veto,
    totalVotes := yes + no + abst + veto }

/-- Finalization result of the witness passed scenario (yes 45, total 45,
deposit 100, fee rate 1000 bp) against a vault holding 1000. -/
def rPassedA : FinalizeResult :=
  { proposal := { pW 45 0 0 0 with status := ProposalStatus.passed },
    refund := 90, fee := 10, vaultBalance := 910 }

/-- Finalization result of the same scenario against a vault holding 2000. -/
def rPassedB : FinalizeResult :=
  { proposal := { pW 45 0 0 0 with status := ProposalStatus.passed },
    refund := 90, fee := 10, vaultBalance := 1910 }

/-- The proposal of the witness vote: a No vote of power 15 on an empty
tally. -/
def pAfterNo : Proposal := { pW 0 0 0 0 with noVotes := 15, totalVotes := 15 }

/-- The ledger after the witness vote. -/
def ledgerAfterNo : List VoteRecord :=
  [{ proposalId := 1, voter := 2, voteType := VoteType.no,
     votingPower := 15, isRevoked := false }]

/-- A ledger already holding a live receipt of voter 1 on proposal 1, used
by the double-vote witness. -/
def ledgerDup : List VoteRecord :=
  [{ proposalId := 1, voter := 1, voteType := VoteType.yes,
     votingPower := 10, isRevoked := false }]

/-- The committee roster invariant: ten slots, the stored count equals the
number of occupied slots and never exceeds ten. -/
def rosterInvariant (cfg : GovernanceConfig) : Prop :=
  cfg.committeeMembers.length = 10 ∧
  cfg.committeeMemberCount = occupiedCount cfg.committeeMembers ∧
  cfg.committeeMemberCount ≤ 10

/-- Patch carrying an out-of-range participation threshold. -/
def patchBadThreshold : GovernanceConfigUpdate :=
  { proposalDeposit := none, votingPeriod := none,
    participationThreshold := some 15000, approvalThreshold := none,
    vetoThreshold := none, feeRate := none }

/-- Patch carrying an out-of-range fee rate with no thresholds supplied. -/
def patchBadFee : GovernanceConfigUpdate :=
  { proposalDeposit := none, votingPeriod := none,
    participationThreshold := none, approvalThreshold := none,
    vetoThreshold := none, feeRate := some 15000 }

/-- Sparse patch supplying only the voting period and approval threshold. -/
def patchSparse : GovernanceConfigUpdate :=
  { proposalDeposit := none, votingPeriod := some 60,
    participationThreshold := none, approvalThreshold := some 6000,
    vetoThreshold := none, feeRate := none }

/-- `cfgW` after the sparse patch: only the voting period and approval
threshold change. -/
def cfgWSparse : GovernanceConfig :=
  { cfgW with votingPeriod := 60, approvalThreshold := 6000 }

/-- Rule document used by the registry witnesses, mirroring the test
suite's first added document. -/
def docW : RuleDocument :=
  { category := "product_standards", title := "Product Quality Standards",
    url := "https://example.com/v1.pdf", hash := "abc123" }

/-- The witness registry after adding `docW` to a fresh registry. -/
def regW1 : RuleRegistry :=
  { authority := 0, ruleDocuments := [docW], version := 2 }

/-- The witness registry after updating the document's hash to `def456`. -/
def regW2 : RuleRegistry :=
  { authority := 0, ruleDocuments := [{ docW with hash := "def456" }],
    version := 3 }

/-- The witness registry after removing the document. -/
def regW3 : RuleRegistry :=
  { authority := 0, ruleDocuments := [], version := 4 }

/-- `cfgW` after adding member 5 into the first empty slot. -/
def cfgWAfterAdd : GovernanceConfig :=
  { cfgW with
    committeeMembers :=
      [some 1, some 2, some 3, some 4, some 5, none, none, none, none, none],
    committeeMemberCount := 5 }

/-- C1: `FinalizeProposal` is callable only after `votingEnd`, and decides
the outcome by the first-match cascade over `total = totalVotes` and
`power = totalVotingPower`: participation miss (including `total == 0`,
guarded before any division) → Rejected, else veto rate above threshold →
Vetoed, else approval rate above threshold → Passed, else Rejected; in
particular a proposal missing participation is Rejected even when the
veto-exceeded condition also holds. -/
theorem finalize_first_match_order (cfg : GovernanceConfig) (p : Proposal)
    (now vault : Nat) (hp : p.status = ProposalStatus.pending) :
    (now < p.votingEnd →
      finalizeProposal cfg p now vault =
        Except.error GovError.votingPeriodNotEnded) ∧
    (p.votingEnd ≤ now →
      ∃ r, finalizeProposal cfg p now vault = Except.ok r ∧
        r.proposal.status = finalizeDecision cfg p) ∧
    ((p.totalVotes = 0 ∨
        p.totalVotes * 10000 / cfg.totalVotingPower < cfg.participationThreshold) →
      finalizeDecision cfg p = ProposalStatus.rejected) ∧
    (¬ (p.totalVotes = 0 ∨
        p.totalVotes * 10000 / cfg.totalVotingPower < cfg.participationThreshold) →
      p.vetoVotes * 10000 / p.totalVotes > cfg.vetoThreshold →
      finalizeDecision cfg p = ProposalStatus.vetoed) ∧
    (¬ (p.totalVotes = 0 ∨
        p.totalVotes * 10000 / cfg.totalVotingPower < cfg.participationThreshold) →
      ¬ p.vetoVotes * 10000 / p.totalVotes > cfg.vetoThreshold →
      p.yesVotes * 10000 / p.totalVotes > cfg.approvalThreshold →
      finalizeDecision cfg p = ProposalStatus.passed) ∧
    (¬ (p.totalVotes = 0 ∨
        p.totalVotes * 10000 / cfg.totalVotingPower < cfg.participationThreshold) →
      ¬ p.vetoVotes * 10000 / p.totalVotes > cfg.vetoThreshold →
      ¬ p.yesVotes * 10000 / p.totalVotes > cfg.approvalThreshold →
      finalizeDecision cfg p = ProposalStatus.rejected) := by
  refine ⟨?_, ?_, ?_, ?_, ?_, ?_⟩
  · intro hlt
    simp [finalizeProposal, hp, hlt]
  · intro hge
    unfold finalizeProposal
    rw [if_neg (by simp [hp]), if_neg (Nat.not_lt.mpr hge)]
    exact ⟨_, rfl, rfl⟩
  · intro hmiss
    simp [finalizeDecision, hmiss]
  · intro hmiss hveto
    simp [finalizeDecision, hmiss, hveto]
  · intro hmiss hveto hyes
    simp [finalizeDecision, hmiss, hveto, hyes]
  · intro hmiss hveto hyes
    simp [finalizeDecision, hmiss, hveto, hyes]

/-- Witness for C1 at the spec §8 veto scenario (yes 50, veto 25, total 75):
participation is met, the veto rate 3333 bp exceeds 3000 bp, so the outcome
is Vetoed. -/
theorem finalize_first_match_order_witness :
    (pW 50 0 0 25).status = ProposalStatus.pending ∧
    ((60 < (pW 50 0 0 25).votingEnd →
      finalizeProposal cfgW (pW 50 0 0 25) 60 1000 =
        Except.error GovError.votingPeriodNotEnded) ∧
    ((pW 50 0 0 25).votingEnd ≤ 60 →
      ∃ r, finalizeProposal cfgW (pW 50 0 0 25) 60 1000 = Except.ok r ∧
        r.proposal.status = finalizeDecision cfgW (pW 50 0 0 25)) ∧
    (((pW 50 0 0 25).totalVotes = 0 ∨
        (pW 50 0 0 25).totalVotes * 10000 / cfgW.totalVotingPower <
          cfgW.participationThreshold) →
      finalizeDecision cfgW (pW 50 0 0 25) = ProposalStatus.rejected) ∧
    (¬ ((pW 50 0 0 25).totalVotes = 0 ∨
        (pW 50 0 0 25).totalVotes * 10000 / cfgW.totalVotingPower <
          cfgW.participationThreshold) →
      (pW 50 0 0 25).vetoVotes * 10000 / (pW 50 0 0 25).totalVotes >
        cfgW.vetoThreshold →
      finalizeDecision cfgW (pW 50 0 0 25) = ProposalStatus.vetoed) ∧
    (¬ ((pW 50 0 0 25).totalVotes = 0 ∨
        (pW 50 0 0 25).totalVotes * 10000 / cfgW.totalVotingPower <
          cfgW.participationThreshold) →
      ¬ (pW 50 0 0 25).vetoVotes * 10000 / (pW 50 0 0 25).totalVotes >
        cfgW.vetoThreshold →
      (pW 50 0 0 25).yesVotes * 10000 / (pW 50 0 0 25).totalVotes >
        cfgW.approvalThreshold →
      finalizeDecision cfgW (pW 50 0 0 25) = ProposalStatus.passed) ∧
    (¬ ((pW 50 0 0 25).totalVotes = 0 ∨
        (pW 50 0 0 25).totalVotes * 10000 / cfgW.totalVotingPower <
          cfgW.participationThreshold) →
      ¬ (pW 50 0 0 25).vetoVotes * 10000 / (pW 50 0 0 25).totalVotes >
        cfgW.vetoThreshold →
      ¬ (pW 50 0 0 25).yesVotes * 10000 / (pW 50 0 0 25).totalVotes >
        cfgW.approvalThreshold →
      finalizeDecision cfgW (pW 50 0 0 25) = ProposalStatus.rejected)) :=
  ⟨by decide, finalize_first_match_order cfgW (pW 50 0 0 25) 60 1000 (by decide)⟩

/-- Shape of every successful finalization: it requires a Pending proposal
past its voting end, writes the decided status, refunds
`depositAmount*(10000-feeRate)/10000` exactly when the decision is Passed,
and retains the rest as the fee. -/
theorem finalizeProposal_ok_iff (cfg : GovernanceConfig) (p : Proposal)
    (now vault : Nat) (r : FinalizeResult)
    (h : finalizeProposal cfg p now vault = Except.ok r) :
    p.status = ProposalStatus.pending ∧ p.votingEnd ≤ now ∧
    r.proposal = { p with status := finalizeDecision cfg p } ∧
    r.refund = (if finalizeDecision cfg p = ProposalStatus.passed then
      p.depositAmount * (10000 - cfg.feeRate) / 10000 else 0) ∧
    r.fee = p.depositAmount - r.refund := by
  unfold finalizeProposal at h
  by_cases h1 : p.status ≠ ProposalStatus.pending
  · rw [if_pos h1] at h
    exact absurd h (by simp)
  · rw [if_neg h1] at h
    by_cases h2 : now < p.votingEnd
    · rw [if_pos h2] at h
      exact absurd h (by simp)
    · rw [if_neg h2] at h
      simp only [Except.ok.injEq] at h
      subst h
      exact ⟨not_not.mp h1, Nat.not_lt.mp h2, rfl, rfl, rfl⟩

/-- C2: for every proposal finalized as Passed and every feeRate in
[0,10000], the refund equals `depositAmount*(10000-feeRate)/10000` computed
from the proposal's recorded `depositAmount`, never from the vault's live
balance (two finalizations differing only in the vault balance settle
identically), and `refund + fee = depositAmount` exactly. -/
theorem finalize_passed_deposit_conservation (cfg : GovernanceConfig)
    (p : Proposal) (now vault vault' : Nat) (r r' : FinalizeResult)
    (h : finalizeProposal cfg p now vault = Except.ok r)
    (h' : finalizeProposal cfg p now vault' = Except.ok r')
    (hfee : cfg.feeRate ≤ 10000)
    (hps : r.proposal.status = ProposalStatus.passed) :
    r.refund = p.depositAmount * (10000 - cfg.feeRate) / 10000 ∧
    r.refund + r.fee = p.depositAmount ∧
    r'.refund = r.refund ∧ r'.fee = r.fee := by
  obtain ⟨-, -, hprop, hrefund, hfeeEq⟩ := finalizeProposal_ok_iff cfg p now vault r h
  obtain ⟨-, -, -, hrefund', hfeeEq'⟩ := finalizeProposal_ok_iff cfg p now vault' r' h'
  have hdec : finalizeDecision cfg p = ProposalStatus.passed := by
    rw [hprop] at hps
    exact hps
  have hr : r.refund = p.depositAmount * (10000 - cfg.feeRate) / 10000 := by
    rw [hrefund, if_pos hdec]
  have hle : r.refund ≤ p.depositAmount := by
    rw [hr]
    calc p.depositAmount * (10000 - cfg.feeRate) / 10000
        ≤ p.depositAmount * 10000 / 10000 :=
          Nat.div_le_div_right (Nat.mul_le_mul_left _ (by omega))
      _ = p.depositAmount := Nat.mul_div_cancel _ (by norm_num)
  refine ⟨hr, ?_, ?_, ?_⟩
  · rw [hfeeEq]
    exact Nat.add_sub_cancel' hle
  · rw [hrefund, hrefund']
  · rw [hfeeEq, hfeeEq', hrefund, hrefund']

/-- Witness for C2 at the spec §8 passed scenario: refund 90 and fee 10
conserve the deposit of 100, identically for two different vault
balances. -/
theorem finalize_passed_deposit_conservation_witness :
    rPassedA.refund = (pW 45 0 0 0).depositAmount * (10000 - cfgW.feeRate) / 10000 ∧
    rPassedA.refund + rPassedA.fee = (pW 45 0 0 0).depositAmount ∧
    rPassedB.refund = rPassedA.refund ∧ rPassedB.fee = rPassedA.fee :=
  finalize_passed_deposit_conservation cfgW (pW 45 0 0 0) 60 1000 2000
    rPassedA rPassedB rfl rfl (by decide) (by decide)

/-- Shape of every successful vote cast: it requires no prior live receipt,
committee membership, a nonzero snapshotted balance and a call before
`votingEnd`; it adds the snapshot to the chosen bucket and appends a live
receipt. -/
theorem castVote_ok_shape (cfg : GovernanceConfig) (ledger : List VoteRecord)
    (p : Proposal) (voter bal : Nat) (vt : VoteType) (now : Nat)
    (p' : Proposal) (ledger' : List VoteRecord)
    (h : castVote cfg ledger p voter bal vt now = Except.ok (p', ledger')) :
    hasLiveVote ledger p.id voter = false ∧
    isCommitteeMember cfg voter = true ∧ bal ≠ 0 ∧ now < p.votingEnd ∧
    p' = addToBucket p vt bal ∧
    ledger' = { proposalId := p.id, voter := voter, voteType := vt,
                votingPower := bal, isRevoked := false } :: ledger := by
  unfold castVote at h
  by_cases h1 : hasLiveVote ledger p.id voter
  · rw [if_pos h1] at h
    exact absurd h (by simp)
  · rw [if_neg h1] at h
    by_cases h2 : isCommitteeMember cfg voter
    · rw [if_neg (by simp [h2])] at h
      by_cases h3 : bal = 0
      · rw [if_pos h3] at h
        exact absurd h (by simp)
      · rw [if_neg h3] at h
        by_cases h4 : p.votingEnd ≤ now
        · rw [if_pos h4] at h
          exact absurd h (by simp)
        · rw [if_neg h4] at h
          simp only [Except.ok.injEq, Prod.mk.injEq] at h
          exact ⟨Bool.of_not_eq_true h1, by simp [h2], h3,
            Nat.not_le.mp h4, h.1.symm, h.2.symm⟩
    · rw [if_pos (by simp [h2])] at h
      exact absurd h (by simp)

/-- C3: every successful `CastVote` adds the voter's snapshotted balance to
exactly one of the four tally buckets and the same amount to `totalVotes`,
so the invariant `yes + no + abstain + veto = totalVotes` is preserved at
every observable point. -/
theorem castVote_preserves_tally_sum (cfg : GovernanceConfig)
    (ledger : List VoteRecord) (p : Proposal) (voter bal : Nat)
    (vt : VoteType) (now : Nat) (p' : Proposal) (ledger' : List VoteRecord)
    (h : castVote cfg ledger p voter bal vt now = Except.ok (p', ledger')) :
    p'.totalVotes = p.totalVotes + bal ∧
    bucket vt p' = bucket vt p + bal ∧
    (∀ vt' : VoteType, vt' ≠ vt → bucket vt' p' = bucket vt' p) ∧
    (p.yesVotes + p.noVotes + p.abstainVotes + p.vetoVotes = p.totalVotes →
      p'.yesVotes + p'.noVotes + p'.abstainVotes + p'.vetoVotes =
        p'.totalVotes) := by
  obtain ⟨-, -, -, -, hp', -⟩ :=
    castVote_ok_shape cfg ledger p voter bal vt now p' ledger' h
  subst hp'
  refine ⟨?_, ?_, ?_, ?_⟩
  · cases vt <;> simp [addToBucket]
  · cases vt <;> simp [addToBucket, bucket]
  · intro vt' hne
    cases vt <;> cases vt' <;> simp_all [addToBucket, bucket]
  · intro hsum
    cases vt <;> simp [addToBucket] <;> omega

/-- Witness for C3: member 2 casts a No vote of power 15 on a fresh
proposal; the no bucket and `totalVotes` both grow by 15, the other buckets
are untouched and the sum invariant is preserved. -/
theorem castVote_preserves_tally_sum_witness :
    pAfterNo.totalVotes = (pW 0 0 0 0).totalVotes + 15 ∧
    bucket VoteType.no pAfterNo = bucket VoteType.no (pW 0 0 0 0) + 15 ∧
    (∀ vt' : VoteType, vt' ≠ VoteType.no →
      bucket vt' pAfterNo = bucket vt' (pW 0 0 0 0)) ∧
    ((pW 0 0 0 0).yesVotes + (pW 0 0 0 0).noVotes + (pW 0 0 0 0).abstainVotes +
        (pW 0 0 0 0).vetoVotes = (pW 0 0 0 0).totalVotes →
      pAfterNo.yesVotes + pAfterNo.noVotes + pAfterNo.abstainVotes +
        pAfterNo.vetoVotes = pAfterNo.totalVotes) :=
  castVote_preserves_tally_sum cfgW [] (pW 0 0 0 0) 2 15 VoteType.no 10
    pAfterNo ledgerAfterNo rfl

/-- C4: a second `CastVote` by the same voter on the same proposal fails —
the per-(proposalId, voter) ledger key already exists — and, being a
rejection, leaves the proposal's tallies unchanged. -/
theorem castVote_duplicate_rejected (cfg : GovernanceConfig)
    (ledger : List VoteRecord) (p : Proposal) (voter bal : Nat)
    (vt : VoteType) (now : Nat)
    (hdup : hasLiveVote ledger p.id voter = true) :
    castVote cfg ledger p voter bal vt now =
      Except.error GovError.alreadyVoted := by
  simp [castVote, hdup]

/-- Witness for C4: voter 1 already holds a live receipt for proposal 1, so
their second cast is rejected. -/
theorem castVote_duplicate_rejected_witness :
    hasLiveVote ledgerDup (pW 10 0 0 0).id 1 = true ∧
    castVote cfgW ledgerDup (pW 10 0 0 0) 1 10 VoteType.yes 10 =
      Except.error GovError.alreadyVoted :=
  ⟨by decide, castVote_duplicate_rejected cfgW ledgerDup (pW 10 0 0 0) 1 10
    VoteType.yes 10 (by decide)⟩

/-- C6: with no prior receipt in the way, a non-member caller is rejected
with `NotCommitteeMember`, a committee member with a zero token balance is
rejected with `InsufficientVotingPower`, and any successful cast implies
membership, a nonzero balance and a call before `votingEnd`; every
rejection returns an error and so leaves the tallies unchanged. -/
theorem castVote_membership_checks (cfg : GovernanceConfig)
    (ledger : List VoteRecord) (p : Proposal) (voter bal : Nat)
    (vt : VoteType) (now : Nat)
    (hdup : hasLiveVote ledger p.id voter = false) :
    (isCommitteeMember cfg voter = false →
      castVote cfg ledger p voter bal vt now =
        Except.error GovError.notCommitteeMember) ∧
    (isCommitteeMember cfg voter = true → bal = 0 →
      castVote cfg ledger p voter bal vt now =
        Except.error GovError.insufficientVotingPower) ∧
    (∀ pr, castVote cfg ledger p voter bal vt now = Except.ok pr →
      isCommitteeMember cfg voter = true ∧ bal ≠ 0 ∧ now < p.votingEnd) := by
  refine ⟨?_, ?_, ?_⟩
  · intro hmem
    simp [castVote, hdup, hmem]
  · intro hmem hbal
    simp [castVote, hdup, hmem, hbal]
  · intro pr h
    obtain ⟨-, h2, h3, h4, -, -⟩ :=
      castVote_ok_shape cfg ledger p voter bal vt now pr.1 pr.2 h
    exact ⟨h2, h3, h4⟩

/-- Witness for C6: on proposal 1 with an empty ledger, non-member 99 is
rejected with `NotCommitteeMember` and member 1 with balance 0 is rejected
with `InsufficientVotingPower`. -/
theorem castVote_membership_checks_witness :
    castVote cfgW [] (pW 0 0 0 0) 99 10 VoteType.yes 10 =
      Except.error GovError.notCommitteeMember ∧
    castVote cfgW [] (pW 0 0 0 0) 1 0 VoteType.yes 10 =
      Except.error GovError.insufficientVotingPower :=
  ⟨(castVote_membership_checks cfgW [] (pW 0 0 0 0) 99 10 VoteType.yes 10
      (by decide)).1 (by decide),
   (castVote_membership_checks cfgW [] (pW 0 0 0 0) 1 0 VoteType.yes 10
      (by decide)).2.1 (by decide) rfl⟩

/-- The finalization decision is always a terminal verdict, never
Pending. -/
theorem finalizeDecision_ne_pending (cfg : GovernanceConfig) (p : Proposal) :
    finalizeDecision cfg p ≠ ProposalStatus.pending := by
  unfold finalizeDecision
  simp only []
  split
  · simp
  · split
    · simp
    · split <;> simp

/-- C5: `FinalizeProposal` succeeds at most once per proposal.  A second call
on the proposal produced by a successful first call fails with
`ProposalNotActive` at any time and against any vault balance; the rejection
returns an error, so status, tallies and deposit accounting stay exactly as
the first call left them. -/
theorem finalize_at_most_once (cfg cfg' : GovernanceConfig) (p : Proposal)
    (now vault : Nat) (r : FinalizeResult)
    (h : finalizeProposal cfg p now vault = Except.ok r)
    (now' vault' : Nat) :
    finalizeProposal cfg' r.proposal now' vault' =
      Except.error GovError.proposalNotActive := by
  obtain ⟨-, -, hprop, -, -⟩ := finalizeProposal_ok_iff cfg p now vault r h
  have hst : r.proposal.status ≠ ProposalStatus.pending := by
    rw [hprop]
    exact finalizeDecision_ne_pending cfg p
  simp [finalizeProposal, hst]

/-- Witness for C5: after the passed scenario's finalization, a second
finalization of the produced proposal is rejected with
`ProposalNotActive`. -/
theorem finalize_at_most_once_witness :
    finalizeProposal cfgW rPassedA.proposal 70 910 =
      Except.error GovError.proposalNotActive :=
  finalize_at_most_once cfgW cfgW (pW 45 0 0 0) 60 1000 rPassedA rfl 70 910

/-- Filling the first empty slot preserves the roster's length. -/
theorem fillFirstEmpty_length (slots : List (Option Nat)) (id : Nat) :
    (fillFirstEmpty slots id).length = slots.length := by
  induction slots with
  | nil => rfl
  | cons head rest ih =>
    cases head with
    | none => rfl
    | some m => simp [fillFirstEmpty, ih]

/-- Clearing a member's slot preserves the roster's length. -/
theorem clearMember_length (slots : List (Option Nat)) (id : Nat) :
    (clearMember slots id).length = slots.length := by
  induction slots with
  | nil => rfl
  | cons head rest ih =>
    cases head with
    | none => simp [clearMember, ih]
    | some m =>
      by_cases hm : m = id <;> simp [clearMember, hm, ih]

/-- At most as many occupied slots as slots. -/
theorem occupiedCount_le_length (slots : List (Option Nat)) :
    occupiedCount slots ≤ slots.length :=
  List.length_filter_le _ _

/-- An occupied head slot adds one to the occupied count. -/
theorem occupiedCount_cons_some (m : Nat) (rest : List (Option Nat)) :
    occupiedCount (some m :: rest) = occupiedCount rest + 1 := by
  simp [occupiedCount, List.filter_cons]

/-- An empty head slot adds nothing to the occupied count. -/
theorem occupiedCount_cons_none (rest : List (Option Nat)) :
    occupiedCount (none :: rest) = occupiedCount rest := by
  simp [occupiedCount, List.filter_cons]

/-- Filling the first empty slot occupies exactly one more slot. -/
theorem occupiedCount_fillFirstEmpty (slots : List (Option Nat)) (id : Nat)
    (h : none ∈ slots) :
    occupiedCount (fillFirstEmpty slots id) = occupiedCount slots + 1 := by
  induction slots with
  | nil => simp at h
  | cons head rest ih =>
    cases head with
    | none =>
      simp [fillFirstEmpty, occupiedCount_cons_some, occupiedCount_cons_none]
    | some m =>
      have h' : none ∈ rest := by simpa using h
      simp [fillFirstEmpty, occupiedCount_cons_some, ih h']

/-- Clearing a present member's slot frees exactly one slot. -/
theorem occupiedCount_clearMember (slots : List (Option Nat)) (id : Nat)
    (h : some id ∈ slots) :
    occupiedCount (clearMember slots id) + 1 = occupiedCount slots := by
  induction slots with
  | nil => simp at h
  | cons head rest ih =>
    cases head with
    | none =>
      have h' : some id ∈ rest := by simpa using h
      simp [clearMember, occupiedCount_cons_none, ih h']
    | some m =>
      by_cases hm : m = id
      · simp [clearMember, hm, occupiedCount_cons_none, occupiedCount_cons_some]
      · have h' : some id ∈ rest := by
          rcases List.mem_cons.mp h with h0 | h0
          · exact absurd (Option.some.inj h0.symm) hm
          · exact h0
        simp [clearMember, hm, occupiedCount_cons_some, ih h']

/-- A roster with every slot occupied has no empty slot. -/
theorem no_empty_slot_of_full (slots : List (Option Nat))
    (h : occupiedCount slots = slots.length) : none ∉ slots := by
  induction slots with
  | nil => simp
  | cons head rest ih =>
    cases head with
    | none =>
      have hle : occupiedCount rest ≤ rest.length := occupiedCount_le_length rest
      rw [occupiedCount_cons_none] at h
      simp only [List.length_cons] at h
      omega
    | some m =>
      rw [occupiedCount_cons_some] at h
      simp only [List.length_cons] at h
      have := ih (by omega)
      simp [this]

/-- C7: the roster invariant (`committeeMemberCount` equals the number of
occupied slots and never exceeds 10) holds after every successful
`AddMember` and `RemoveMember`; adding a present identity fails with
`MemberAlreadyExists`, adding to a roster with all ten slots occupied fails
with `CommitteeFull`, and removing an absent identity fails with
`MemberNotFound`, each rejection leaving the roster unchanged. -/
theorem committee_roster_invariant (cfg : GovernanceConfig) (id : Nat)
    (hinv : rosterInvariant cfg) :
    (∀ cfg', addCommitteeMember cfg id = Except.ok cfg' →
      rosterInvariant cfg') ∧
    (∀ cfg', removeCommitteeMember cfg id = Except.ok cfg' →
      rosterInvariant cfg') ∧
    (some id ∈ cfg.committeeMembers →
      addCommitteeMember cfg id = Except.error GovError.memberAlreadyExists) ∧
    (some id ∉ cfg.committeeMembers →
      occupiedCount cfg.committeeMembers = 10 →
      addCommitteeMember cfg id = Except.error GovError.committeeFull) ∧
    (some id ∉ cfg.committeeMembers →
      removeCommitteeMember cfg id = Except.error GovError.memberNotFound) := by
  obtain ⟨hlen, hcount, hle⟩ := hinv
  refine ⟨?_, ?_, ?_, ?_, ?_⟩
  · intro cfg' h
    unfold addCommitteeMember at h
    by_cases h1 : some id ∈ cfg.committeeMembers
    · rw [if_pos (by simpa using h1)] at h
      exact absurd h (by simp)
    · rw [if_neg (by simpa using h1)] at h
      by_cases h2 : none ∈ cfg.committeeMembers
      · rw [if_neg (by simpa using h2)] at h
        simp only [Except.ok.injEq] at h
        subst h
        refine ⟨by simpa [fillFirstEmpty_length], ?_, ?_⟩
        · simp only []
          rw [occupiedCount_fillFirstEmpty _ _ h2, hcount]
        · have hocc := occupiedCount_le_length
            (fillFirstEmpty cfg.committeeMembers id)
          rw [occupiedCount_fillFirstEmpty _ _ h2,
            fillFirstEmpty_length, hlen] at hocc
          simp only []
          omega
      · rw [if_pos (by simpa using h2)] at h
        exact absurd h (by simp)
  · intro cfg' h
    unfold removeCommitteeMember at h
    by_cases h1 : some id ∈ cfg.committeeMembers
    · rw [if_neg (by simpa using h1)] at h
      simp only [Except.ok.injEq] at h
      subst h
      have hocc := occupiedCount_clearMember cfg.committeeMembers id h1
      exact ⟨by simpa [clearMember_length], by simp only []; omega,
        by simp only []; omega⟩
    · rw [if_pos (by simpa using h1)] at h
      exact absurd h (by simp)
  · intro h1
    simp [addCommitteeMember, h1]
  · intro h1 hfull
    have h2 : none ∉ cfg.committeeMembers :=
      no_empty_slot_of_full cfg.committeeMembers (by omega)
    simp [addCommitteeMember, h1, h2]
  · intro h1
    simp [removeCommitteeMember, h1]

/-- Witness for C7: adding member 5 to `cfgW` (four occupied slots of ten)
preserves the roster invariant; re-adding member 2 fails with
`MemberAlreadyExists`; removing the absent member 99 fails with
`MemberNotFound`. -/
theorem committee_roster_invariant_witness :
    rosterInvariant cfgWAfterAdd ∧
    addCommitteeMember cfgW 2 = Except.error GovError.memberAlreadyExists ∧
    removeCommitteeMember cfgW 99 = Except.error GovError.memberNotFound :=
  ⟨(committee_roster_invariant cfgW 5
      ⟨by decide, by decide, by decide⟩).1 cfgWAfterAdd rfl,
   (committee_roster_invariant cfgW 2
      ⟨by decide, by decide, by decide⟩).2.2.1 (by decide),
   (committee_roster_invariant cfgW 99
      ⟨by decide, by decide, by decide⟩).2.2.2.2 (by decide)⟩

/-- An optional basis-point field all of whose values are in range fails no
validation. -/
theorem option_bp_ok (o : Option Nat) (h : ∀ t ∈ o, t ≤ 10000) :
    o.any (fun t => t > 10000) = false := by
  cases o with
  | none => rfl
  | some t => simpa using h t rfl

/-- C8: initialization and `UpdateConfig` validate every provided
basis-point parameter before any state is created or mutated: any
participation, approval or veto threshold above 10000 fails with
`InvalidThreshold`, a fee rate above 10000 (with valid thresholds) fails
with `InvalidFeeRate`, and a valid sparse patch applies exactly the
supplied fields, leaving every other field unchanged. -/
theorem config_threshold_validation (a d vp pt apr vt fr : Nat)
    (cfg : GovernanceConfig) (u : GovernanceConfigUpdate) :
    (pt > 10000 ∨ apr > 10000 ∨ vt > 10000 →
      initializeGovernance a d vp pt apr vt fr =
        Except.error GovError.invalidThreshold) ∧
    (pt ≤ 10000 → apr ≤ 10000 → vt ≤ 10000 → fr > 10000 →
      initializeGovernance a d vp pt apr vt fr =
        Except.error GovError.invalidFeeRate) ∧
    (∀ t, (u.participationThreshold = some t ∨ u.approvalThreshold = some t ∨
        u.vetoThreshold = some t) → t > 10000 →
      updateConfig cfg u = Except.error GovError.invalidThreshold) ∧
    ((∀ t ∈ u.participationThreshold, t ≤ 10000) →
      (∀ t ∈ u.approvalThreshold, t ≤ 10000) →
      (∀ t ∈ u.vetoThreshold, t ≤ 10000) →
      ∀ t ∈ u.feeRate, t > 10000 →
      updateConfig cfg u = Except.error GovError.invalidFeeRate) ∧
    (∀ cfg', updateConfig cfg u = Except.ok cfg' →
      cfg'.proposalDeposit = u.proposalDeposit.getD cfg.proposalDeposit ∧
      cfg'.votingPeriod = u.votingPeriod.getD cfg.votingPeriod ∧
      cfg'.participationThreshold =
        u.participationThreshold.getD cfg.participationThreshold ∧
      cfg'.approvalThreshold = u.approvalThreshold.getD cfg.approvalThreshold ∧
      cfg'.vetoThreshold = u.vetoThreshold.getD cfg.vetoThreshold ∧
      cfg'.feeRate = u.feeRate.getD cfg.feeRate ∧
      cfg'.authority = cfg.authority ∧
      cfg'.committeeMembers = cfg.committeeMembers ∧
      cfg'.committeeMemberCount = cfg.committeeMemberCount ∧
      cfg'.totalVotingPower = cfg.totalVotingPower ∧
      cfg'.proposalCounter = cfg.proposalCounter) := by
  refine ⟨?_, ?_, ?_, ?_, ?_⟩
  · intro hbad
    unfold initializeGovernance
    rw [if_pos]
    rcases hbad with h | h | h
    · exact Or.inl h
    · exact Or.inr (Or.inl h)
    · exact Or.inr (Or.inr h)
  · intro h1 h2 h3 hfr
    unfold initializeGovernance
    rw [if_neg (by omega), if_pos hfr]
  · intro t ht hgt
    unfold updateConfig
    rw [if_pos]
    rcases ht with h | h | h
    · exact Or.inl (by rw [h]; simpa using hgt)
    · exact Or.inr (Or.inl (by rw [h]; simpa using hgt))
    · exact Or.inr (Or.inr (by rw [h]; simpa using hgt))
  · intro h1 h2 h3 t ht hgt
    unfold updateConfig
    rw [if_neg, if_pos]
    · rw [Option.mem_def] at ht
      rw [ht]
      simpa using hgt
    · rw [option_bp_ok _ h1, option_bp_ok _ h2, option_bp_ok _ h3]
      simp
  · intro cfg' h
    unfold updateConfig at h
    split at h
    · exact absurd h (by simp)
    · split at h
      · exact absurd h (by simp)
      · split at h
        · exact absurd h (by simp)
        · simp only [Except.ok.injEq] at h
          subst h
          exact ⟨rfl, rfl, rfl, rfl, rfl, rfl, rfl, rfl, rfl, rfl, rfl⟩

/-- Witness for C8, mirroring the Initialization Errors tests: a 15000 bp
participation threshold fails with `InvalidThreshold`, a 15000 bp fee rate
fails with `InvalidFeeRate` (for initialization and for sparse updates),
and the sparse patch `{votingPeriod := 60, approvalThreshold := 6000}`
changes exactly those fields of `cfgW`. -/
theorem config_threshold_validation_witness :
    initializeGovernance 0 100 60 15000 6000 3000 250 =
      Except.error GovError.invalidThreshold ∧
    initializeGovernance 0 100 60 5000 6000 3000 15000 =
      Except.error GovError.invalidFeeRate ∧
    updateConfig cfgW patchBadThreshold =
      Except.error GovError.invalidThreshold ∧
    updateConfig cfgW patchBadFee = Except.error GovError.invalidFeeRate ∧
    (cfgWSparse.proposalDeposit =
      patchSparse.proposalDeposit.getD cfgW.proposalDeposit ∧
     cfgWSparse.votingPeriod = patchSparse.votingPeriod.getD cfgW.votingPeriod ∧
     cfgWSparse.participationThreshold =
       patchSparse.participationThreshold.getD cfgW.participationThreshold ∧
     cfgWSparse.approvalThreshold =
       patchSparse.approvalThreshold.getD cfgW.approvalThreshold ∧
     cfgWSparse.vetoThreshold =
       patchSparse.vetoThreshold.getD cfgW.vetoThreshold ∧
     cfgWSparse.feeRate = patchSparse.feeRate.getD cfgW.feeRate ∧
     cfgWSparse.authority = cfgW.authority ∧
     cfgWSparse.committeeMembers = cfgW.committeeMembers ∧
     cfgWSparse.committeeMemberCount = cfgW.committeeMemberCount ∧
     cfgWSparse.totalVotingPower = cfgW.totalVotingPower ∧
     cfgWSparse.proposalCounter = cfgW.proposalCounter) :=
  ⟨(config_threshold_validation 0 100 60 15000 6000 3000 250 cfgW
      patchSparse).1 (by omega),
   (config_threshold_validation 0 100 60 5000 6000 3000 15000 cfgW
      patchSparse).2.1 (by omega) (by omega) (by omega) (by omega),
   (config_threshold_validation 0 100 60 5000 6000 3000 250 cfgW
      patchBadThreshold).2.2.1 15000 (Or.inl rfl) (by omega),
   (config_threshold_validation 0 100 60 5000 6000 3000 250 cfgW
      patchBadFee).2.2.2.1 (by simp [patchBadFee]) (by simp [patchBadFee])
      (by simp [patchBadFee]) 15000 rfl (by omega),
   (config_threshold_validation 0 100 60 5000 6000 3000 250 cfgW
      patchSparse).2.2.2.2 cfgWSparse rfl⟩

/-- C9: the registry starts at version 1 and every successful Add, Update or
Remove increments the version by exactly 1; `Verify` is a pure read with the
round trip: after `Add(doc)`, `Verify` at the new index with `doc.hash`
returns true; after `Update(index, newHash := H2)`, `Verify(index, H2)`
returns true and `Verify(index, oldHash)` returns false whenever the old
hash differs from `H2`. -/
theorem rule_registry_roundtrip (auth : Nat) (reg : RuleRegistry)
    (doc : RuleDocument) (index : Nat) (newUrl : Option String)
    (h2 : String) :
    (createRuleRegistry auth).version = 1 ∧
    (∀ reg', addRuleDocument reg doc = Except.ok reg' →
      reg'.version = reg.version + 1 ∧
      verifyRuleDocument reg' reg.ruleDocuments.length doc.hash = true) ∧
    (∀ reg' old, reg.ruleDocuments[index]? = some old →
      updateRuleDocument reg index newUrl (some h2) = Except.ok reg' →
      reg'.version = reg.version + 1 ∧
      verifyRuleDocument reg' index h2 = true ∧
      (old.hash ≠ h2 → verifyRuleDocument reg' index old.hash = false)) ∧
    (∀ reg', removeRuleDocument reg index = Except.ok reg' →
      reg'.version = reg.version + 1) := by
  refine ⟨rfl, ?_, ?_, ?_⟩
  · intro reg' h
    unfold addRuleDocument at h
    split at h
    · exact absurd h (by simp)
    · split at h
      · exact absurd h (by simp)
      · simp only [Except.ok.injEq] at h
        subst h
        exact ⟨rfl, by simp [verifyRuleDocument, List.getElem?_append_right]⟩
  · intro reg' old hold h
    unfold updateRuleDocument at h
    rw [hold] at h
    simp only [Except.ok.injEq] at h
    subst h
    have hi : index < reg.ruleDocuments.length := by
      by_contra hc
      simp [List.getElem?_eq_none (Nat.le_of_not_lt hc)] at hold
    refine ⟨rfl, ?_, ?_⟩
    · simp [verifyRuleDocument, List.getElem?_set_self, hi]
    · intro hne
      simp [verifyRuleDocument, List.getElem?_set_self, hi]
      exact fun hcontra => hne hcontra.symm
  · intro reg' h
    unfold removeRuleDocument at h
    split at h
    · simp only [Except.ok.injEq] at h
      subst h
      rfl
    · exact absurd h (by simp)

/-- Witness for C9: a fresh registry is at version 1; adding `docW` yields
version 2 with its hash verifiable at index 0; updating the hash to
`def456` yields version 3 where the new hash verifies and the old one no
longer does; removing the document yields version 4. -/
theorem rule_registry_roundtrip_witness :
    (createRuleRegistry 0).version = 1 ∧
    regW1.version = (createRuleRegistry 0).version + 1 ∧
    verifyRuleDocument regW1 0 docW.hash = true ∧
    regW2.version = regW1.version + 1 ∧
    verifyRuleDocument regW2 0 "def456" = true ∧
    verifyRuleDocument regW2 0 docW.hash = false ∧
    regW3.version = regW2.version + 1 :=
  ⟨(rule_registry_roundtrip 0 regW1 docW 0 none "def456").1,
   ((rule_registry_roundtrip 0 (createRuleRegistry 0) docW 0 none
      "def456").2.1 regW1 rfl).1,
   ((rule_registry_roundtrip 0 (createRuleRegistry 0) docW 0 none
      "def456").2.1 regW1 rfl).2,
   ((rule_registry_roundtrip 0 regW1 docW 0 none "def456").2.2.1 regW2 docW
      rfl rfl).1,
   ((rule_registry_roundtrip 0 regW1 docW 0 none "def456").2.2.1 regW2 docW
      rfl rfl).2.1,
   ((rule_registry_roundtrip 0 regW1 docW 0 none "def456").2.2.1 regW2 docW
      rfl rfl).2.2 (by decide),
   (rule_registry_roundtrip 0 regW2 docW 0 none "def456").2.2.2 regW3 rfl⟩

/-- C10: a zero-length title passes the title-length validation — only
titles longer than 100 characters are rejected — so `CreateProposal` with
an empty title, a valid description and the default (sufficient) deposit
succeeds and stores the empty title. -/
theorem create_proposal_empty_title (cfg : GovernanceConfig)
    (proposer : Nat) (description : String) (now : Nat)
    (hd : description.length ≤ 800) :
    (∃ p cfg', createProposal cfg proposer "" description none now =
        Except.ok (p, cfg') ∧ p.title = "") ∧
    (∀ title : String, title.length > 100 →
      createProposal cfg proposer title description none now =
        Except.error GovError.invalidProposalTitleLength) := by
  constructor
  · refine ⟨newProposal cfg proposer "" description cfg.proposalDeposit now,
      { cfg with proposalCounter := cfg.proposalCounter + 1 }, ?_, rfl⟩
    unfold createProposal
    rw [if_neg (by simp), if_neg (by omega)]
    simp only [Option.getD_none]
    rw [if_neg (by omega)]
  · intro title ht
    unfold createProposal
    rw [if_pos ht]

/-- Witness for C10: with configuration `cfgW` and the one-character
description `d`, creating a proposal with the empty title succeeds and a
101-character title is rejected. -/
theorem create_proposal_empty_title_witness :
    (∃ p cfg', createProposal cfgW 1 "" "d" none 0 =
        Except.ok (p, cfg') ∧ p.title = "") ∧
    (∀ title : String, title.length > 100 →
      createProposal cfgW 1 title "d" none 0 =
        Except.error GovError.invalidProposalTitleLength) :=
  create_proposal_empty_title cfgW 1 "d" 0 (by decide)

end Governance
